import Mathlib

/-!
Verification of the Command-pattern example (`main.cpp`): the `Light`
receiver, the `TurnOnCommand` / `TurnOffCommand` concrete commands, and the
`RemoteControl` invoker.  Console output (`std::cout` lines) is modelled as a
list of `Output` events so that branch choices and error reports are
observable.  State is threaded explicitly: every mutating member function
returns the updated objects together with the emitted output.
-/

/-- One `std::cout` line emitted by the program, abstracted to an event. -/
inductive Output where
  | lightOn (brightness : Int)
  | lightOff
  | pressingButton (name : String)
  | pressingUndo
  | noCommandToUndo
deriving DecidableEq, Repr

/-- Receiver: `class Light` with fields `is_on_ : bool`, `brightness_ : int`. -/
structure Light where
  is_on_ : Bool
  brightness_ : Int
deriving DecidableEq, Repr

/-- `Light()` constructor: `is_on_(false), brightness_(0)`. -/
def Light.init : Light := ⟨false, 0⟩

/-- `Light::turnOn`: sets `is_on_ = true`, `brightness_ = 100`, prints. -/
def Light.turnOn (_ : Light) : Light × List Output :=
  (⟨true, 100⟩, [Output.lightOn 100])

/-- `Light::turnOff`: sets `is_on_ = false`, `brightness_ = 0`, prints. -/
def Light.turnOff (_ : Light) : Light × List Output :=
  (⟨false, 0⟩, [Output.lightOff])

/-- `class TurnOnCommand`: holds `executed_ : bool` (the shared `Light` is
threaded explicitly). Constructor sets `executed_(false)`. -/
structure TurnOnCommand where
  executed_ : Bool
deriving DecidableEq, Repr

/-- `TurnOnCommand::execute`: `if (!executed_) { light_->turnOn(); executed_ = true; }`. -/
def TurnOnCommand.execute (c : TurnOnCommand) (light : Light) :
    TurnOnCommand × Light × List Output :=
  if !c.executed_ then
    let r := light.turnOn
    (⟨true⟩, r.1, r.2)
  else (c, light, [])

/-- `TurnOnCommand::undo`: `if (executed_) { light_->turnOff(); executed_ = false; }`. -/
def TurnOnCommand.undo (c : TurnOnCommand) (light : Light) :
    TurnOnCommand × Light × List Output :=
  if c.executed_ then
    let r := light.turnOff
    (⟨false⟩, r.1, r.2)
  else (c, light, [])

/-- `TurnOnCommand::getName`: returns the constant `"Turn On Light"`. -/
def TurnOnCommand.getName (_ : TurnOnCommand) : String := "Turn On Light"

/-- `class TurnOffCommand`: holds `executed_ : bool`. Constructor sets
`executed_(false)`. -/
structure TurnOffCommand where
  executed_ : Bool
deriving DecidableEq, Repr

/-- `TurnOffCommand::execute`: `if (!executed_) { light_->turnOff(); executed_ = true; }`. -/
def TurnOffCommand.execute (c : TurnOffCommand) (light : Light) :
    TurnOffCommand × Light × List Output :=
  if !c.executed_ then
    let r := light.turnOff
    (⟨true⟩, r.1, r.2)
  else (c, light, [])

/-- `TurnOffCommand::undo`: `if (executed_) { light_->turnOn(); executed_ = false; }`. -/
def TurnOffCommand.undo (c : TurnOffCommand) (light : Light) :
    TurnOffCommand × Light × List Output :=
  if c.executed_ then
    let r := light.turnOn
    (⟨false⟩, r.1, r.2)
  else (c, light, [])

/-- `TurnOffCommand::getName`: returns the constant `"Turn Off Light"`. -/
def TurnOffCommand.getName (_ : TurnOffCommand) : String := "Turn Off Light"

/-- The polymorphic `Command` interface, as the closed sum of the two
concrete subclasses appearing in the file. -/
inductive Command where
  | on (c : TurnOnCommand)
  | off (c : TurnOffCommand)
deriving DecidableEq, Repr

/-- Virtual dispatch of `Command::execute`. -/
def Command.execute : Command → Light → Command × Light × List Output
  | .on c, l => let r := c.execute l; (.on r.1, r.2.1, r.2.2)
  | .off c, l => let r := c.execute l; (.off r.1, r.2.1, r.2.2)

/-- Virtual dispatch of `Command::undo`. -/
def Command.undo : Command → Light → Command × Light × List Output
  | .on c, l => let r := c.undo l; (.on r.1, r.2.1, r.2.2)
  | .off c, l => let r := c.undo l; (.off r.1, r.2.1, r.2.2)

/-- Virtual dispatch of `Command::getName`. -/
def Command.getName : Command → String
  | .on c => c.getName
  | .off c => c.getName

/-- The `executed_` flag of whichever concrete command this is. -/
def Command.isExecuted : Command → Bool
  | .on c => c.executed_
  | .off c => c.executed_

/-- A freshly constructed `TurnOnCommand` (as `std::make_unique<TurnOnCommand>(light)`). -/
def freshTurnOn : Command := .on ⟨false⟩

/-- A freshly constructed `TurnOffCommand`. -/
def freshTurnOff : Command := .off ⟨false⟩

/-- Invoker: `class RemoteControl` with field
`std::unique_ptr<Command> last_command_` (initially null). -/
structure RemoteControl where
  last_command_ : Option Command
deriving DecidableEq, Repr

/-- A default-constructed `RemoteControl`: null `last_command_`. -/
def RemoteControl.init : RemoteControl := ⟨none⟩

/-- `RemoteControl::pressButton`: prints the command name, calls
`command->execute()`, stores the command in `last_command_`. -/
def RemoteControl.pressButton (_ : RemoteControl) (command : Command) (light : Light) :
    RemoteControl × Light × List Output :=
  let r := command.execute light
  (⟨some r.1⟩, r.2.1, Output.pressingButton command.getName :: r.2.2)

/-- `RemoteControl::pressUndo`: if `last_command_` is non-null, calls its
`undo()` and resets the pointer; otherwise prints "No command to undo". -/
def RemoteControl.pressUndo (rc : RemoteControl) (light : Light) :
    RemoteControl × Light × List Output :=
  match rc.last_command_ with
  | some c =>
    let r := c.undo light
    (⟨none⟩, r.2.1, Output.pressingUndo :: r.2.2)
  | none => (rc, light, [Output.noCommandToUndo])

/-- The `Light` state invariant: brightness is 0 or 100 and the light is on
exactly when brightness is 100. -/
def LightInv (l : Light) : Prop :=
  (l.brightness_ = 0 ∨ l.brightness_ = 100) ∧ (l.is_on_ = true ↔ l.brightness_ = 100)

instance (l : Light) : Decidable (LightInv l) := by
  unfold LightInv; infer_instance

/-- States of the `Light` reachable from the constructor through its own
member functions `turnOn` / `turnOff`. -/
inductive Light.Reachable : Light → Prop where
  | init : Light.Reachable Light.init
  | stepOn {l : Light} : Light.Reachable l → Light.Reachable (l.turnOn).1
  | stepOff {l : Light} : Light.Reachable l → Light.Reachable (l.turnOff).1

/-- Modelled from the spec: the result signal of a History operation —
`EmptyHistory` on an empty undo/redo, success otherwise (spec §6, §7); the
source's `RemoteControl` reports only via console output. -/
inductive HistoryResult where
  | ok
  | emptyHistory
deriving DecidableEq, Repr

/-- Modelled from the spec: §4.3 History (Invoker) owning two ordered
sequences of commands, "done" and "undone", most-recent-last; missing from
the source, whose `RemoteControl` retains only the single most recent
command (spec §9 notes this generalization). -/
structure History where
  done : List Command
  undone : List Command
deriving DecidableEq, Repr

/-- Modelled from the spec: `perform(cmd)` executes `cmd`, appends it to
"done", clears "undone" entirely. -/
def History.perform (h : History) (cmd : Command) (light : Light) :
    History × Light × HistoryResult :=
  let r := cmd.execute light
  (⟨h.done ++ [r.1], []⟩, r.2.1, .ok)

/-- Modelled from the spec: `undo()` is a no-op returning a "nothing to
undo" signal if "done" is empty; otherwise pops the last element of "done",
calls its `undo`, pushes it onto "undone". -/
def History.undoOp (h : History) (light : Light) : History × Light × HistoryResult :=
  match h.done.getLast? with
  | none => (h, light, .emptyHistory)
  | some c =>
    let r := c.undo light
    (⟨h.done.dropLast, h.undone ++ [r.1]⟩, r.2.1, .ok)

/-- Modelled from the spec: `redo()` is a no-op returning a "nothing to
redo" signal if "undone" is empty; otherwise pops the last element of
"undone", calls its `execute`, pushes it onto "done". -/
def History.redoOp (h : History) (light : Light) : History × Light × HistoryResult :=
  match h.undone.getLast? with
  | none => (h, light, .emptyHistory)
  | some c =>
    let r := c.execute light
    (⟨h.done ++ [r.1], h.undone.dropLast⟩, r.2.1, .ok)

/-! Concrete program runs used by the scenario claims. -/

/-- Run of `pressButton(TurnOn)`, `pressButton(TurnOff)`, `pressUndo`, as in
`main`, starting from the initial light and a fresh remote. -/
def twoPerformsOneUndo : RemoteControl × Light × List Output :=
  let s1 := RemoteControl.init.pressButton freshTurnOn Light.init
  let s2 := s1.1.pressButton freshTurnOff s1.2.1
  s2.1.pressUndo s2.2.1

/-- The same run continued by a second `pressUndo`. -/
def twoPerformsTwoUndos : RemoteControl × Light × List Output :=
  twoPerformsOneUndo.1.pressUndo twoPerformsOneUndo.2.1

/-- A fresh `TurnOffCommand` executed on the initial (already off) light,
then undone. -/
def execThenUndoOffAtInit : Light :=
  let r := freshTurnOff.execute Light.init
  (r.1.undo r.2.1).2.1

/-- Spec Scenario 1 on the modelled History: `perform(TurnOn)` from the
initial light and empty history. -/
def scenario1_afterPerform : History × Light × HistoryResult :=
  History.perform ⟨[], []⟩ freshTurnOn Light.init

/-- Scenario 1 continued: `undo()`. -/
def scenario1_afterUndo : History × Light × HistoryResult :=
  scenario1_afterPerform.1.undoOp scenario1_afterPerform.2.1

/-- Scenario 1 continued: `redo()`. -/
def scenario1_afterRedo : History × Light × HistoryResult :=
  scenario1_afterUndo.1.redoOp scenario1_afterUndo.2.1

/-! Claim theorems. -/

/-- C9: every state of the `Light` reachable from the constructor via
`turnOn`/`turnOff` satisfies `brightness_ ∈ {0, 100}` and
`is_on_ = true ↔ brightness_ = 100`; moreover every command `execute` and
`undo` preserves the invariant, hence so does every execute/undo sequence. -/
theorem light_invariant_reachable :
    (∀ l : Light, Light.Reachable l → LightInv l) ∧
    (∀ (c : Command) (l : Light), LightInv l →
      LightInv (c.execute l).2.1 ∧ LightInv (c.undo l).2.1) := by
  constructor
  · intro l h
    induction h with
    | init => decide
    | stepOn _ _ => exact (by decide : LightInv ⟨true, 100⟩)
    | stepOff _ _ => exact (by decide : LightInv ⟨false, 0⟩)
  · intro c l hl
    rcases c with ⟨⟨b⟩⟩ | ⟨⟨b⟩⟩ <;> cases b <;>
      refine ⟨?_, ?_⟩ <;>
        simp [Command.execute, Command.undo, TurnOnCommand.execute, TurnOnCommand.undo,
          TurnOffCommand.execute, TurnOffCommand.undo, Light.turnOn, Light.turnOff] <;>
        first
          | exact hl
          | decide

/-- C9 witness: the invariant holds at the concrete reachable state
obtained by one `turnOn` from the constructor. -/
theorem light_invariant_reachable_witness :
    LightInv (Light.init.turnOn).1 :=
  light_invariant_reachable.1 _ (Light.Reachable.stepOn Light.Reachable.init)

/-- C8: `getName` returns the same fixed string for every value of the
`executed_` flag; in the embedding it takes no receiver and emits no
output, so it can change neither the command nor the `Light`. -/
theorem getName_stable :
    (∀ b : Bool, (Command.on ⟨b⟩).getName = "Turn On Light") ∧
    (∀ b : Bool, (Command.off ⟨b⟩).getName = "Turn Off Light") :=
  ⟨fun _ => rfl, fun _ => rfl⟩

/-- C5: `pressUndo` with a null `last_command_` leaves the remote and the
light unchanged and prints the "No command to undo" signal. -/
theorem pressUndo_empty_reports (rc : RemoteControl) (light : Light)
    (h : rc.last_command_ = none) :
    rc.pressUndo light = (rc, light, [Output.noCommandToUndo]) := by
  simp [RemoteControl.pressUndo, h]

/-- C5 witness: concrete instance at the fresh remote and initial light. -/
theorem pressUndo_empty_reports_witness :
    RemoteControl.init.pressUndo Light.init =
      (RemoteControl.init, Light.init, [Output.noCommandToUndo]) :=
  pressUndo_empty_reports RemoteControl.init Light.init rfl

/-- C10: after any `pressUndo` call, an immediately following `pressUndo`
always takes the "No command to undo" branch and leaves the light (and the
remote) unchanged — each `pressButton` enables at most one state-changing
`pressUndo`. -/
theorem pressUndo_consumes_slot (rc : RemoteControl) (light : Light) :
    ((rc.pressUndo light).1).pressUndo (rc.pressUndo light).2.1 =
      ((rc.pressUndo light).1, (rc.pressUndo light).2.1, [Output.noCommandToUndo]) := by
  rcases rc with ⟨_ | c⟩ <;> rfl

/-- C1 counterexample: press TurnOn then TurnOff from the initial (Off)
light, then undo twice: the light ends On (the second undo is an empty-slot
no-op), not in its pre-sequence Off state, refuting the round trip at n = 2. -/
theorem roundTrip_two_fails :
    twoPerformsTwoUndos.2.1 = (⟨true, 100⟩ : Light) ∧
      twoPerformsTwoUndos.2.1 ≠ Light.init := by decide

/-- C1 (amended): the round trip holds only for a single `pressButton` of a
fresh command that actually toggles the light — TurnOn while the light is
off, or TurnOff while it is on; for n ≥ 2 only the most recent command is
retained, so n undos cannot restore the pre-sequence state. -/
theorem roundTrip_single_toggle (rc : RemoteControl) (l : Light) (h : LightInv l) :
    (l.is_on_ = false →
      ((rc.pressButton freshTurnOn l).1.pressUndo (rc.pressButton freshTurnOn l).2.1).2.1 = l) ∧
    (l.is_on_ = true →
      ((rc.pressButton freshTurnOff l).1.pressUndo (rc.pressButton freshTurnOff l).2.1).2.1 = l) := by
  obtain ⟨o, b⟩ := l
  obtain ⟨hb, hiff⟩ := h
  constructor
  · intro ho
    simp only at ho
    subst ho
    simp at hiff
    rcases hb with hb | hb
    · simp only at hb
      subst hb
      rfl
    · exact absurd hb hiff
  · intro ho
    simp only at ho
    subst ho
    simp at hiff
    subst hiff
    rfl

/-- C1 witness: the single-toggle round trip at the concrete initial state. -/
theorem roundTrip_single_toggle_witness :
    ((RemoteControl.init.pressButton freshTurnOn Light.init).1.pressUndo
      (RemoteControl.init.pressButton freshTurnOn Light.init).2.1).2.1 = Light.init :=
  (roundTrip_single_toggle RemoteControl.init Light.init (by decide)).1 rfl

/-- C3 counterexample: a fresh `TurnOffCommand` executed while the light is
already Off (the initial state), then undone, leaves the light On with
brightness 100 — not the pre-execute state — because `undo` always calls
`turnOn` regardless of the state `execute` saw. -/
theorem undo_not_exact_inverse :
    execThenUndoOffAtInit = (⟨true, 100⟩ : Light) ∧
      execThenUndoOffAtInit ≠ Light.init := by decide

/-- C3 (amended): `undo` after `execute` on a fresh command restores the
exact pre-execute light state only when the command toggles the light:
`TurnOnCommand` executed while the light is off, or `TurnOffCommand`
executed while it is on (states satisfying the Light invariant). -/
theorem undo_exact_inverse_toggle (l : Light) (h : LightInv l) :
    (l.is_on_ = false →
      ((freshTurnOn.execute l).1.undo (freshTurnOn.execute l).2.1).2.1 = l) ∧
    (l.is_on_ = true →
      ((freshTurnOff.execute l).1.undo (freshTurnOff.execute l).2.1).2.1 = l) := by
  obtain ⟨o, b⟩ := l
  obtain ⟨hb, hiff⟩ := h
  constructor
  · intro ho
    simp only at ho
    subst ho
    simp at hiff
    rcases hb with hb | hb
    · simp only at hb
      subst hb
      rfl
    · exact absurd hb hiff
  · intro ho
    simp only at ho
    subst ho
    simp at hiff
    subst hiff
    rfl

/-- C3 witness: the toggle case at the concrete initial (Off) state. -/
theorem undo_exact_inverse_toggle_witness :
    ((freshTurnOn.execute Light.init).1.undo (freshTurnOn.execute Light.init).2.1).2.1 =
      Light.init :=
  (undo_exact_inverse_toggle Light.init (by decide)).1 rfl

/-- C4 counterexample: calling `execute` on an already-executed
`TurnOnCommand` leaves the receiver unchanged but emits nothing at all
(`execute` returns void and prints nothing on this path), so the claim's
conjunct "the caller is informed of the error" fails at this input. -/
theorem double_execute_not_reported :
    ¬ (((Command.on ⟨true⟩).execute ⟨true, 100⟩).2.1 = (⟨true, 100⟩ : Light) ∧
       ((Command.on ⟨true⟩).execute ⟨true, 100⟩).2.2 ≠ ([] : List Output)) := by decide

/-- C4 (amended): a second `execute` on an already-executed command is a
silent no-op: the command, the light, and the output are all unchanged; no
error is reported to the caller. -/
theorem double_execute_silent_noop (c : Command) (l : Light)
    (h : c.isExecuted = true) :
    c.execute l = (c, l, []) := by
  rcases c with ⟨⟨b⟩⟩ | ⟨⟨b⟩⟩ <;> simp [Command.isExecuted] at h <;> subst h <;> rfl

/-- C4 witness: the silent no-op at a concrete executed command. -/
theorem double_execute_silent_noop_witness :
    (Command.on ⟨true⟩).execute Light.init = (Command.on ⟨true⟩, Light.init, []) :=
  double_execute_silent_noop (Command.on ⟨true⟩) Light.init rfl

/-- C6 counterexample: calling `undo` on a never-executed fresh
`TurnOnCommand` neither mutates the light nor emits any report — it is a
silent success, not a failure reported to the caller. -/
theorem undo_without_execute_not_reported :
    ¬ ((freshTurnOn.undo Light.init).2.1 ≠ Light.init ∨
       (freshTurnOn.undo Light.init).2.2 ≠ ([] : List Output)) := by decide

/-- C6 (amended): `undo` on a command whose `executed_` flag is false is a
silent no-op: the command, the light, and the output are all unchanged; no
caller error is reported. -/
theorem undo_without_execute_silent_noop (c : Command) (l : Light)
    (h : c.isExecuted = false) :
    c.undo l = (c, l, []) := by
  rcases c with ⟨⟨b⟩⟩ | ⟨⟨b⟩⟩ <;> simp [Command.isExecuted] at h <;> subst h <;> rfl

/-- C6 witness: the silent no-op at a concrete fresh command. -/
theorem undo_without_execute_silent_noop_witness :
    freshTurnOn.undo Light.init = (freshTurnOn, Light.init, []) :=
  undo_without_execute_silent_noop freshTurnOn Light.init rfl

/-- C2 (code evaluation): in the `main` scenario — `pressButton(TurnOn)`,
`pressButton(TurnOff)`, then repeated `pressUndo` — the first undo leaves
the light On, but the second undo already takes the "No command to undo"
branch and the light stays On, contradicting the code's own comment
"Should turn light back off" (and the claim's multi-level undo). -/
theorem scenario2_second_undo_empty :
    twoPerformsOneUndo.2.1 = (⟨true, 100⟩ : Light) ∧
    twoPerformsTwoUndos.2.2 = [Output.noCommandToUndo] ∧
    twoPerformsTwoUndos.2.1 = (⟨true, 100⟩ : Light) := by decide

/-- C7: on the spec-modelled History, Scenario 1 holds: from the initial
Off light and empty history, `perform(TurnOn)` leaves the light On,
`undo()` leaves it Off, and `redo()` re-executes the command, returns
success, and leaves the light On again. -/
theorem scenario1_undo_redo_cycle :
    scenario1_afterPerform.2.1 = (⟨true, 100⟩ : Light) ∧
    scenario1_afterUndo.2.1 = (⟨false, 0⟩ : Light) ∧
    scenario1_afterRedo.2.1 = (⟨true, 100⟩ : Light) ∧
    scenario1_afterRedo.2.2 = HistoryResult.ok ∧
    scenario1_afterRedo.1.done = [Command.on ⟨true⟩] := by decide
